import Mathlib

/-!
Shallow embedding of the send-side bandwidth estimator of
src/modules/bitrate_controller/send_side_bandwidth_estimation.cc.

Machine integers are modelled as natural numbers carrying the value of the
corresponding C++ unsigned integer; arithmetic that can wrap a uint32_t
carries an explicit reduction modulo 2^32 (the cooldown subtractions, the
decrease-interval addition, the increased bitrate).  The signed
number_of_packets parameter is modelled as an integer.

The member declarations of the SendSideBandwidthEstimation class live in its
header file, which is not among the sources; the field set and meanings below
are modelled from the spec (section 3: bitrate, bounds and the receiver hint
are u32 bits/second, last_fraction_loss is a Q8 integer in [0, 255],
last_round_trip_time holds the u32 rtt_ms feedback parameter, the two
cooldown timestamps hold the u32 now_ms parameter of the update calls).
-/

/-- Modulus of C++ uint32_t arithmetic. -/
def UINT32_MOD : ℕ := 4294967296

/-- Wrapping uint32_t subtraction a - b, as it appears in the cooldown checks
(now_ms - time_last_increase_) and (now_ms - time_last_decrease_). -/
def usub32 (a b : ℕ) : ℕ := (a % UINT32_MOD + (UINT32_MOD - b % UINT32_MOD)) % UINT32_MOD

/-- enum kBweIncreaseIntervalMs = 1000. -/
def kBweIncreaseIntervalMs : ℕ := 1000

/-- enum kBweDecreaseIntervalMs = 300. -/
def kBweDecreaseIntervalMs : ℕ := 300

/-- enum kLimitNumPackets = 20. -/
def kLimitNumPackets : ℕ := 20

/-- CalcTfrcBps from the source.  The C++ function takes a uint16_t rtt and a
uint8_t loss; if either is zero it returns 0 ("input variables out of
range"), otherwise it evaluates the RFC 3448 section 3.1 throughput formula
(s = 1000 bytes, b = 1, t_RTO = 4 RTT) in IEEE-754 double arithmetic and
truncates the result to uint32_t.  That floating-point evaluation has no
exact counterpart here; it is kept abstract as the explicit parameter
tfrcBody, so every theorem below holds for every possible value of the
floating-point computation.  Callers pass the stored rtt and loss through
the uint16_t/uint8_t parameter conversions (mod 65536 / mod 256). -/
def CalcTfrcBps (tfrcBody : ℕ → ℕ → ℕ) (rtt : ℕ) (loss : ℕ) : ℕ :=
  if rtt = 0 ∨ loss = 0 then 0 else tfrcBody rtt loss

/-- The estimator state.  Field names follow the C++ members (trailing
underscores dropped); widths are modelled from the spec as described in the
module comment. -/
structure EstimatorState where
  accumulate_lost_packets_Q8 : ℕ
  accumulate_expected_packets : ℕ
  bitrate : ℕ
  min_bitrate_configured : ℕ
  max_bitrate_configured : ℕ
  last_fraction_loss : ℕ
  last_round_trip_time : ℕ
  bwe_incoming : ℕ
  time_last_increase : ℕ
  time_last_decrease : ℕ
deriving DecidableEq

/-- The constructor: every member is initialized to zero. -/
def initState : EstimatorState :=
  { accumulate_lost_packets_Q8 := 0
    accumulate_expected_packets := 0
    bitrate := 0
    min_bitrate_configured := 0
    max_bitrate_configured := 0
    last_fraction_loss := 0
    last_round_trip_time := 0
    bwe_incoming := 0
    time_last_increase := 0
    time_last_decrease := 0 }

/-- SetSendBitrate: bitrate_ = bitrate; (no clamp, no other effect). -/
def SetSendBitrate (s : EstimatorState) (bitrate : ℕ) : EstimatorState :=
  { s with bitrate := bitrate }

/-- SetMinMaxBitrate: overwrites both configured bounds; nothing else. -/
def SetMinMaxBitrate (s : EstimatorState) (min_bitrate max_bitrate : ℕ) : EstimatorState :=
  { s with min_bitrate_configured := min_bitrate
           max_bitrate_configured := max_bitrate }

/-- SetMinBitrate: overwrites the configured minimum; nothing else. -/
def SetMinBitrate (s : EstimatorState) (min_bitrate : ℕ) : EstimatorState :=
  { s with min_bitrate_configured := min_bitrate }

/-- CurrentEstimate: pure read of (bitrate_, last_fraction_loss_,
last_round_trip_time_); the loss out-parameter is a uint8_t. -/
def CurrentEstimate (s : EstimatorState) : ℕ × ℕ × ℕ :=
  (s.bitrate, s.last_fraction_loss % 256, s.last_round_trip_time)

/-- The bitrate value produced by CapBitrateToThresholds: cap to a positive
bwe_incoming_, then cap to max_bitrate_configured_, then raise to
min_bitrate_configured_ (the three ifs of the source, in order). -/
def cappedBitrate (bitrate mn mx bwe : ℕ) : ℕ :=
  let b1 := if 0 < bwe ∧ bwe < bitrate then bwe else bitrate
  let b2 := if mx < b1 then mx else b1
  if b2 < mn then mn else b2

/-- CapBitrateToThresholds from the source: rewrites bitrate_ as cappedBitrate
does and touches nothing else.  The WEBRTC_TRACE side effect is modelled
separately by CapBitrateWarns. -/
def CapBitrateToThresholds (s : EstimatorState) : EstimatorState :=
  { s with bitrate := cappedBitrate s.bitrate s.min_bitrate_configured
                        s.max_bitrate_configured s.bwe_incoming }

/-- Whether CapBitrateToThresholds emits its warning trace: true exactly when,
after the hint cap and the max cap, the bitrate is still below the configured
minimum (the condition of the third if, where WEBRTC_TRACE is called). -/
def CapBitrateWarns (s : EstimatorState) : Bool :=
  let b1 := if 0 < s.bwe_incoming ∧ s.bwe_incoming < s.bitrate then s.bwe_incoming
            else s.bitrate
  let b2 := if s.max_bitrate_configured < b1 then s.max_bitrate_configured else b1
  decide (b2 < s.min_bitrate_configured)

/-- The branch cascade of UpdateEstimate before the final clamp.

Increase branch: bitrate_ = static_cast of (bitrate_ * 1.08 + 0.5) to uint32,
then bitrate_ += 1000.  For every b < 2^32 the double evaluation of
b * 1.08 + 0.5 differs from the exact rational (54 b + 25) / 50 by less than
2e-6, while (54 b + 25) / 50 is never closer than 1/50 to an integer
(54 b + 25 is odd, hence never divisible by 50), so the truncation equals the
exact natural-number quotient; the final mod carries the uint32 wrap of
bitrate_ += 1000.

Decrease branch: bitrate_ = static_cast of (bitrate_ * (512 - loss)) / 512.0.
For loss at most 255 and b < 2^32 the product is an integer below 2^41, exact
in double, and division by 512 is an exact power-of-two scaling, so the
truncation is exactly the natural-number quotient.  Then
bitrate_ = max(bitrate_, CalcTfrcBps(last_round_trip_time_,
last_fraction_loss_)), where the call converts the stored values through the
uint16_t/uint8_t parameters of CalcTfrcBps. -/
def rateAdapt (tfrcBody : ℕ → ℕ → ℕ) (s : EstimatorState) (now_ms : ℕ) : EstimatorState :=
  if s.last_fraction_loss ≤ 5 then
    if kBweIncreaseIntervalMs ≤ usub32 now_ms s.time_last_increase then
      { s with time_last_increase := now_ms % UINT32_MOD
               bitrate := ((54 * s.bitrate + 25) / 50 + 1000) % UINT32_MOD }
    else s
  else if s.last_fraction_loss ≤ 26 then
    s
  else
    if (kBweDecreaseIntervalMs + s.last_round_trip_time) % UINT32_MOD ≤
        usub32 now_ms s.time_last_decrease then
      { s with time_last_decrease := now_ms % UINT32_MOD
               bitrate := max (s.bitrate * (512 - s.last_fraction_loss) / 512)
                 (CalcTfrcBps tfrcBody (s.last_round_trip_time % 65536)
                   (s.last_fraction_loss % 256)) }
    else s

/-- UpdateEstimate from the source: the branch cascade, then
CapBitrateToThresholds() at the end of the function. -/
def UpdateEstimate (tfrcBody : ℕ → ℕ → ℕ) (s : EstimatorState) (now_ms : ℕ) : EstimatorState :=
  CapBitrateToThresholds (rateAdapt tfrcBody s now_ms)

/-- UpdateReceiverEstimate: bwe_incoming_ = bandwidth; CapBitrateToThresholds(). -/
def UpdateReceiverEstimate (s : EstimatorState) (bandwidth : ℕ) : EstimatorState :=
  CapBitrateToThresholds { s with bwe_incoming := bandwidth }

/-- UpdateReceiverBlock from the source.  fraction_loss is a uint8_t parameter
(values mod 256); number_of_packets is a C int, modelled as an integer.  The
committed last_fraction_loss_ is the integer quotient of the accumulators;
per the spec it is a Q8 value in [0, 255] (the quotient is at most 255
whenever the accumulated losses came from Q8 reports). -/
def UpdateReceiverBlock (tfrcBody : ℕ → ℕ → ℕ) (s : EstimatorState)
    (fraction_loss : ℕ) (rtt : ℕ) (number_of_packets : ℤ) (now_ms : ℕ) : EstimatorState :=
  let s0 := { s with last_round_trip_time := rtt }
  if 0 < number_of_packets then
    let n := number_of_packets.toNat
    let num_lost_packets_Q8 := (fraction_loss % 256) * n
    let lost := s0.accumulate_lost_packets_Q8 + num_lost_packets_Q8
    let expected := s0.accumulate_expected_packets + n
    if kLimitNumPackets ≤ expected then
      UpdateEstimate tfrcBody
        { s0 with last_fraction_loss := lost / expected
                  accumulate_lost_packets_Q8 := 0
                  accumulate_expected_packets := 0 } now_ms
    else
      { s0 with accumulate_lost_packets_Q8 := lost
                accumulate_expected_packets := expected }
  else
    UpdateEstimate tfrcBody s0 now_ms

/-- The sequential clamp equals a closed max/min formula. -/
theorem cappedBitrate_eq_max_min (b mn mx bwe : ℕ) :
    cappedBitrate b mn mx bwe = max mn (min mx (if 0 < bwe then min b bwe else b)) := by
  simp only [cappedBitrate]
  split_ifs <;> omega

/-- Bounds guaranteed by the clamp: the result is at least mn; it is at most mx
when mn is at most mx; and it is at most a positive bwe when mn is. -/
theorem cappedBitrate_bounds (b mn mx bwe : ℕ) :
    mn ≤ cappedBitrate b mn mx bwe ∧
      (mn ≤ mx → cappedBitrate b mn mx bwe ≤ mx) ∧
      (0 < bwe → mn ≤ bwe → cappedBitrate b mn mx bwe ≤ bwe) := by
  simp only [cappedBitrate]
  refine ⟨?_, fun h => ?_, fun h1 h2 => ?_⟩ <;> split_ifs <;> omega

theorem cap_bitrate (s : EstimatorState) :
    (CapBitrateToThresholds s).bitrate =
      cappedBitrate s.bitrate s.min_bitrate_configured s.max_bitrate_configured
        s.bwe_incoming := rfl

theorem cap_only_bitrate (s : EstimatorState) :
    CapBitrateToThresholds s = { s with bitrate := (CapBitrateToThresholds s).bitrate } := rfl

theorem rateAdapt_min (tfrcBody : ℕ → ℕ → ℕ) (s : EstimatorState) (now_ms : ℕ) :
    (rateAdapt tfrcBody s now_ms).min_bitrate_configured = s.min_bitrate_configured := by
  unfold rateAdapt; split_ifs <;> rfl

theorem rateAdapt_max (tfrcBody : ℕ → ℕ → ℕ) (s : EstimatorState) (now_ms : ℕ) :
    (rateAdapt tfrcBody s now_ms).max_bitrate_configured = s.max_bitrate_configured := by
  unfold rateAdapt; split_ifs <;> rfl

theorem rateAdapt_bwe (tfrcBody : ℕ → ℕ → ℕ) (s : EstimatorState) (now_ms : ℕ) :
    (rateAdapt tfrcBody s now_ms).bwe_incoming = s.bwe_incoming := by
  unfold rateAdapt; split_ifs <;> rfl

theorem rateAdapt_loss (tfrcBody : ℕ → ℕ → ℕ) (s : EstimatorState) (now_ms : ℕ) :
    (rateAdapt tfrcBody s now_ms).last_fraction_loss = s.last_fraction_loss := by
  unfold rateAdapt; split_ifs <;> rfl

theorem rateAdapt_acc_lost (tfrcBody : ℕ → ℕ → ℕ) (s : EstimatorState) (now_ms : ℕ) :
    (rateAdapt tfrcBody s now_ms).accumulate_lost_packets_Q8 =
      s.accumulate_lost_packets_Q8 := by
  unfold rateAdapt; split_ifs <;> rfl

theorem rateAdapt_acc_expected (tfrcBody : ℕ → ℕ → ℕ) (s : EstimatorState) (now_ms : ℕ) :
    (rateAdapt tfrcBody s now_ms).accumulate_expected_packets =
      s.accumulate_expected_packets := by
  unfold rateAdapt; split_ifs <;> rfl

/-- UpdateEstimate ends in the clamp, and the adaptation cascade touches
neither the bounds nor the hint, so the clamp bounds hold for its result. -/
theorem updateEstimate_bounds (tfrcBody : ℕ → ℕ → ℕ) (s : EstimatorState) (now_ms : ℕ) :
    s.min_bitrate_configured ≤ (UpdateEstimate tfrcBody s now_ms).bitrate ∧
      (s.min_bitrate_configured ≤ s.max_bitrate_configured →
        (UpdateEstimate tfrcBody s now_ms).bitrate ≤ s.max_bitrate_configured) ∧
      (0 < s.bwe_incoming → s.min_bitrate_configured ≤ s.bwe_incoming →
        (UpdateEstimate tfrcBody s now_ms).bitrate ≤ s.bwe_incoming) := by
  unfold UpdateEstimate
  rw [cap_bitrate, rateAdapt_min, rateAdapt_max, rateAdapt_bwe]
  exact cappedBitrate_bounds _ _ _ _

theorem updateEstimate_loss (tfrcBody : ℕ → ℕ → ℕ) (s : EstimatorState) (now_ms : ℕ) :
    (UpdateEstimate tfrcBody s now_ms).last_fraction_loss = s.last_fraction_loss := by
  unfold UpdateEstimate CapBitrateToThresholds
  exact rateAdapt_loss tfrcBody s now_ms

theorem updateEstimate_acc_lost (tfrcBody : ℕ → ℕ → ℕ) (s : EstimatorState) (now_ms : ℕ) :
    (UpdateEstimate tfrcBody s now_ms).accumulate_lost_packets_Q8 =
      s.accumulate_lost_packets_Q8 := by
  unfold UpdateEstimate CapBitrateToThresholds
  exact rateAdapt_acc_lost tfrcBody s now_ms

theorem updateEstimate_acc_expected (tfrcBody : ℕ → ℕ → ℕ) (s : EstimatorState)
    (now_ms : ℕ) :
    (UpdateEstimate tfrcBody s now_ms).accumulate_expected_packets =
      s.accumulate_expected_packets := by
  unfold UpdateEstimate CapBitrateToThresholds
  exact rateAdapt_acc_expected tfrcBody s now_ms

theorem usub32_zero (a : ℕ) : usub32 a 0 = a % UINT32_MOD := by
  unfold usub32 UINT32_MOD
  omega

/-- C5: the bounds clamp computes, from the pre-clamp bitrate b, the final
bitrate max(min_configured, min(max_configured, if hint positive then
min(b, hint) else b)); the warning trace fires exactly when the final
min-raise is the binding constraint; the state is not rejected (only the
bitrate field is rewritten). -/
theorem capBitrateToThresholds_formula (s : EstimatorState) :
    (CapBitrateToThresholds s).bitrate =
      max s.min_bitrate_configured
        (min s.max_bitrate_configured
          (if 0 < s.bwe_incoming then min s.bitrate s.bwe_incoming else s.bitrate)) ∧
      (CapBitrateWarns s = true ↔
        min s.max_bitrate_configured
            (if 0 < s.bwe_incoming then min s.bitrate s.bwe_incoming else s.bitrate) <
          s.min_bitrate_configured) ∧
      CapBitrateToThresholds s = { s with bitrate := (CapBitrateToThresholds s).bitrate } := by
  refine ⟨by rw [cap_bitrate, cappedBitrate_eq_max_min], ?_, rfl⟩
  simp only [CapBitrateWarns, decide_eq_true_eq]
  split_ifs <;> omega

/-- C5 witness: the clamp formula evaluated at a concrete state with no hint,
a minimum of 100 and a maximum of 300 against a bitrate of 500. -/
theorem capBitrateToThresholds_formula_witness :
    (CapBitrateToThresholds
        { initState with bitrate := 500, min_bitrate_configured := 100,
                         max_bitrate_configured := 300 }).bitrate =
      max 100 (min 300 (if (0:ℕ) < 0 then min 500 0 else 500)) :=
  (capBitrateToThresholds_formula
    { initState with bitrate := 500, min_bitrate_configured := 100,
                     max_bitrate_configured := 300 }).1

/-- C6 counterexample: the claim says the bitrate lies within the clamped
region after SetSendBitrate or the bound setters return.  From the initial
state, SetMinMaxBitrate(100, 1000) followed by SetSendBitrate(50) leaves the
bitrate at 50, below the configured minimum of 100: the setters do not
clamp. -/
theorem setters_do_not_clamp_cex :
    ¬ ((SetSendBitrate (SetMinMaxBitrate initState 100 1000) 50).min_bitrate_configured ≤
        (SetSendBitrate (SetMinMaxBitrate initState 100 1000) 50).bitrate) := by
  decide

/-- C6 amended: SetSendBitrate, SetMinMaxBitrate and SetMinBitrate write the
targeted fields and perform no clamp (the bitrate may leave the clamped
region); the clamp instead runs at the end of UpdateReceiverEstimate (and of
UpdateEstimate, hence of the feedback path when rate adaptation runs). -/
theorem setters_do_not_clamp (s : EstimatorState) (b mn mx mn2 v : ℕ) :
    (SetSendBitrate s b).bitrate = b ∧
      (SetSendBitrate s b).min_bitrate_configured = s.min_bitrate_configured ∧
      (SetSendBitrate s b).max_bitrate_configured = s.max_bitrate_configured ∧
      (SetMinMaxBitrate s mn mx).bitrate = s.bitrate ∧
      (SetMinMaxBitrate s mn mx).min_bitrate_configured = mn ∧
      (SetMinMaxBitrate s mn mx).max_bitrate_configured = mx ∧
      (SetMinBitrate s mn2).bitrate = s.bitrate ∧
      (SetMinBitrate s mn2).min_bitrate_configured = mn2 ∧
      (SetMinBitrate s mn2).max_bitrate_configured = s.max_bitrate_configured ∧
      (UpdateReceiverEstimate s v).bitrate =
        cappedBitrate s.bitrate s.min_bitrate_configured s.max_bitrate_configured v :=
  ⟨rfl, rfl, rfl, rfl, rfl, rfl, rfl, rfl, rfl, rfl⟩

/-- C7: the TFRC floor returns 0 whenever its rtt argument or its Q8 loss
argument is 0, and then it never overrides a decreased bitrate (max x 0 = x);
for in-range inputs it returns the value of the RFC 3448 computation, which
is kept abstract as tfrcBody (IEEE double arithmetic), so this holds for
every value of that computation. -/
theorem calcTfrcBps_guard (tfrcBody : ℕ → ℕ → ℕ) (rtt loss x : ℕ) :
    ((rtt = 0 ∨ loss = 0) →
        CalcTfrcBps tfrcBody rtt loss = 0 ∧ max x (CalcTfrcBps tfrcBody rtt loss) = x) ∧
      (rtt ≠ 0 → loss ≠ 0 → CalcTfrcBps tfrcBody rtt loss = tfrcBody rtt loss) := by
  unfold CalcTfrcBps
  constructor
  · intro h
    rw [if_pos h]
    exact ⟨rfl, Nat.max_zero x⟩
  · intro h1 h2
    rw [if_neg (by tauto)]

/-- C7 witness: zero rtt with nonzero loss yields a floor of 0 and leaves a
decreased bitrate of 123 unfloored. -/
theorem calcTfrcBps_guard_witness :
    CalcTfrcBps (fun r l => r + l) 0 200 = 0 ∧
      max 123 (CalcTfrcBps (fun r l => r + l) 0 200) = 123 :=
  (calcTfrcBps_guard (fun r l => r + l) 0 200 123).1 (Or.inl rfl)

/-- C10: UpdateReceiverEstimate can raise the bitrate: whenever it is called
while the bitrate is below the configured minimum, the final min-raise of the
clamp lifts the bitrate to exactly that minimum, whatever the hint value. -/
theorem updateReceiverEstimate_raises_to_min (s : EstimatorState) (bandwidth : ℕ)
    (h : s.bitrate < s.min_bitrate_configured) :
    (UpdateReceiverEstimate s bandwidth).bitrate = s.min_bitrate_configured ∧
      s.bitrate < (UpdateReceiverEstimate s bandwidth).bitrate := by
  have hb : (UpdateReceiverEstimate s bandwidth).bitrate =
      cappedBitrate s.bitrate s.min_bitrate_configured s.max_bitrate_configured bandwidth :=
    rfl
  rw [hb, cappedBitrate_eq_max_min]
  constructor <;> split_ifs <;> omega

/-- C10 witness: a hint of 55 fed to a state with bitrate 0 and configured
minimum 100 raises the bitrate to 100. -/
theorem updateReceiverEstimate_raises_to_min_witness :
    (UpdateReceiverEstimate { initState with min_bitrate_configured := 100 } 55).bitrate =
        ({ initState with min_bitrate_configured := 100 } : EstimatorState).min_bitrate_configured ∧
      ({ initState with min_bitrate_configured := 100 } : EstimatorState).bitrate <
        (UpdateReceiverEstimate { initState with min_bitrate_configured := 100 } 55).bitrate :=
  updateReceiverEstimate_raises_to_min { initState with min_bitrate_configured := 100 } 55
    (by decide)


/-- C1 counterexample: the claim requires min_bitrate_configured <= bitrate
after any UpdateReceiverBlock call returns.  From the initial state,
SetMinMaxBitrate(100, 1000), SetSendBitrate(50) and a feedback report of 5
packets (below the 20-packet gate) returns with bitrate 50, still below the
configured minimum of 100: the early-return path does not clamp. -/
theorem updateCalls_bounds_cex :
    ¬ ((UpdateReceiverBlock (fun _ _ => 0)
          (SetSendBitrate (SetMinMaxBitrate initState 100 1000) 50)
          0 0 5 0).min_bitrate_configured ≤
        (UpdateReceiverBlock (fun _ _ => 0)
          (SetSendBitrate (SetMinMaxBitrate initState 100 1000) 50)
          0 0 5 0).bitrate) := by
  decide

/-- C1 amended: after any UpdateReceiverEstimate call, and after any
UpdateReceiverBlock call that runs rate adaptation (packets_in_report at most
0, or the accumulated expected packets reaching 20), the state satisfies
min_bitrate_configured <= bitrate; bitrate <= max_bitrate_configured provided
min <= max; and if the receiver hint is positive, bitrate <= hint provided
min <= hint.  An UpdateReceiverBlock call that only accumulates (fewer than
20 expected packets) returns with the bitrate unchanged and unclamped. -/
theorem updateCalls_bounds (tfrcBody : ℕ → ℕ → ℕ) (s : EstimatorState)
    (v fl rtt : ℕ) (n : ℤ) (now : ℕ) :
    (s.min_bitrate_configured ≤ (UpdateReceiverEstimate s v).bitrate ∧
        (s.min_bitrate_configured ≤ s.max_bitrate_configured →
          (UpdateReceiverEstimate s v).bitrate ≤ s.max_bitrate_configured) ∧
        (0 < v → s.min_bitrate_configured ≤ v →
          (UpdateReceiverEstimate s v).bitrate ≤ v)) ∧
      ((n ≤ 0 ∨ 20 ≤ s.accumulate_expected_packets + n.toNat) →
        (s.min_bitrate_configured ≤
            (UpdateReceiverBlock tfrcBody s fl rtt n now).bitrate ∧
          (s.min_bitrate_configured ≤ s.max_bitrate_configured →
            (UpdateReceiverBlock tfrcBody s fl rtt n now).bitrate ≤
              s.max_bitrate_configured) ∧
          (0 < s.bwe_incoming → s.min_bitrate_configured ≤ s.bwe_incoming →
            (UpdateReceiverBlock tfrcBody s fl rtt n now).bitrate ≤ s.bwe_incoming))) ∧
      (0 < n → s.accumulate_expected_packets + n.toNat < 20 →
        (UpdateReceiverBlock tfrcBody s fl rtt n now).bitrate = s.bitrate) := by
  refine ⟨cappedBitrate_bounds s.bitrate s.min_bitrate_configured s.max_bitrate_configured v,
    ?_, ?_⟩
  · intro hrun
    dsimp only [UpdateReceiverBlock]
    by_cases hn : 0 < n
    · rw [if_pos hn]
      have h20 : kLimitNumPackets ≤ s.accumulate_expected_packets + n.toNat := by
        rcases hrun with h | h
        · omega
        · simpa [kLimitNumPackets] using h
      rw [if_pos h20]
      exact updateEstimate_bounds tfrcBody
        { s with
            last_round_trip_time := rtt
            last_fraction_loss :=
              (s.accumulate_lost_packets_Q8 + fl % 256 * n.toNat) /
                (s.accumulate_expected_packets + n.toNat)
            accumulate_lost_packets_Q8 := 0
            accumulate_expected_packets := 0 } now
    · rw [if_neg hn]
      exact updateEstimate_bounds tfrcBody { s with last_round_trip_time := rtt } now
  · intro hn h20
    dsimp only [UpdateReceiverBlock]
    rw [if_pos hn, if_neg (by simp only [kLimitNumPackets]; omega)]

/-- C1 witness: the amended bounds evaluated at min 100, max 1000, a hint of
500, a committing report of 25 packets and an accumulating report of 5
packets. -/
theorem updateCalls_bounds_witness :
    (100 ≤ (UpdateReceiverEstimate (SetMinMaxBitrate initState 100 1000) 500).bitrate ∧
        (UpdateReceiverEstimate (SetMinMaxBitrate initState 100 1000) 500).bitrate ≤ 1000 ∧
        (UpdateReceiverEstimate (SetMinMaxBitrate initState 100 1000) 500).bitrate ≤ 500) ∧
      (100 ≤ (UpdateReceiverBlock (fun _ _ => 0) (SetMinMaxBitrate initState 100 1000)
          0 50 25 0).bitrate ∧
        (UpdateReceiverBlock (fun _ _ => 0) (SetMinMaxBitrate initState 100 1000)
          0 50 25 0).bitrate ≤ 1000) ∧
      (UpdateReceiverBlock (fun _ _ => 0)
          (UpdateReceiverEstimate (SetMinMaxBitrate initState 100 1000) 500)
          0 50 25 0).bitrate ≤ 500 ∧
      (UpdateReceiverBlock (fun _ _ => 0) (SetMinMaxBitrate initState 100 1000)
          0 50 5 0).bitrate = (SetMinMaxBitrate initState 100 1000).bitrate := by
  have h1 := updateCalls_bounds (fun _ _ => 0) (SetMinMaxBitrate initState 100 1000)
    500 0 50 25 0
  have h2 := updateCalls_bounds (fun _ _ => 0) (SetMinMaxBitrate initState 100 1000)
    500 0 50 5 0
  have h3 := updateCalls_bounds (fun _ _ => 0)
    (UpdateReceiverEstimate (SetMinMaxBitrate initState 100 1000) 500) 500 0 50 25 0
  have hb1 := h1.2.1 (Or.inr (by decide))
  have hb3 := h3.2.1 (Or.inr (by decide))
  exact ⟨⟨h1.1.1, h1.1.2.1 (by decide), h1.1.2.2 (by decide) (by decide)⟩,
    ⟨hb1.1, hb1.2.1 (by decide)⟩,
    hb3.2.2 (by decide) (by decide),
    h2.2.2 (by decide) (by decide)⟩

/-- C2: a feedback report with positive packets that keeps the accumulated
expected packets below 20 only adds to the two accumulators (and overwrites
the rtt): bitrate and last_fraction_loss are untouched and no rate adaptation
runs.  The report that lifts the accumulated expected packets to 20 or more
commits last_fraction_loss as the integer quotient of the accumulators,
resets both accumulators to zero and runs rate adaptation. -/
theorem updateReceiverBlock_gating (tfrcBody : ℕ → ℕ → ℕ) (s : EstimatorState)
    (fl rtt : ℕ) (n : ℤ) (now : ℕ) (hn : 0 < n) (hfl : fl ≤ 255) :
    (s.accumulate_expected_packets + n.toNat < 20 →
        UpdateReceiverBlock tfrcBody s fl rtt n now =
          { s with
              last_round_trip_time := rtt
              accumulate_lost_packets_Q8 :=
                s.accumulate_lost_packets_Q8 + fl * n.toNat
              accumulate_expected_packets :=
                s.accumulate_expected_packets + n.toNat }) ∧
      (20 ≤ s.accumulate_expected_packets + n.toNat →
        UpdateReceiverBlock tfrcBody s fl rtt n now =
          UpdateEstimate tfrcBody
            { s with
                last_round_trip_time := rtt
                last_fraction_loss :=
                  (s.accumulate_lost_packets_Q8 + fl * n.toNat) /
                    (s.accumulate_expected_packets + n.toNat)
                accumulate_lost_packets_Q8 := 0
                accumulate_expected_packets := 0 } now ∧
          (UpdateReceiverBlock tfrcBody s fl rtt n now).last_fraction_loss =
            (s.accumulate_lost_packets_Q8 + fl * n.toNat) /
              (s.accumulate_expected_packets + n.toNat) ∧
          (UpdateReceiverBlock tfrcBody s fl rtt n now).accumulate_lost_packets_Q8 = 0 ∧
          (UpdateReceiverBlock tfrcBody s fl rtt n now).accumulate_expected_packets = 0) := by
  have hmod : fl % 256 = fl := Nat.mod_eq_of_lt (by omega)
  constructor
  · intro h
    dsimp only [UpdateReceiverBlock]
    rw [if_pos hn, if_neg (by simp only [kLimitNumPackets]; omega), hmod]
  · intro h
    have heq : UpdateReceiverBlock tfrcBody s fl rtt n now =
        UpdateEstimate tfrcBody
          { s with
              last_round_trip_time := rtt
              last_fraction_loss :=
                (s.accumulate_lost_packets_Q8 + fl * n.toNat) /
                  (s.accumulate_expected_packets + n.toNat)
              accumulate_lost_packets_Q8 := 0
              accumulate_expected_packets := 0 } now := by
      dsimp only [UpdateReceiverBlock]
      rw [if_pos hn, if_pos (by simp only [kLimitNumPackets]; omega), hmod]
    refine ⟨heq, ?_, ?_, ?_⟩
    · rw [heq, updateEstimate_loss]
    · rw [heq, updateEstimate_acc_lost]
    · rw [heq, updateEstimate_acc_expected]

/-- C2 witness: an accumulating report of 5 packets with Q8 loss 128 only
fills the accumulators; a committing report of 25 packets sets
last_fraction_loss to the quotient 128. -/
theorem updateReceiverBlock_gating_witness :
    UpdateReceiverBlock (fun _ _ => 0) initState 128 50 5 7 =
        { initState with
            last_round_trip_time := 50
            accumulate_lost_packets_Q8 :=
              initState.accumulate_lost_packets_Q8 + 128 * (5:ℤ).toNat
            accumulate_expected_packets :=
              initState.accumulate_expected_packets + (5:ℤ).toNat } ∧
      (UpdateReceiverBlock (fun _ _ => 0) initState 128 50 25 7).last_fraction_loss =
        (initState.accumulate_lost_packets_Q8 + 128 * (25:ℤ).toNat) /
          (initState.accumulate_expected_packets + (25:ℤ).toNat) := by
  have h1 := updateReceiverBlock_gating (fun _ _ => 0) initState 128 50 5 7
    (by decide) (by decide)
  have h2 := updateReceiverBlock_gating (fun _ _ => 0) initState 128 50 25 7
    (by decide) (by decide)
  exact ⟨h1.1 (by decide), (h2.2 (by decide)).2.1⟩

/-- C3: with last_fraction_loss above 26 and the unsigned cooldown of
300 + last_round_trip_time ms elapsed since time_last_decrease, the bitrate
becomes the maximum of bitrate * (512 - loss) / 512 and the TFRC rate
computed from the stored rtt and loss (through the uint16/uint8 parameters of
CalcTfrcBps), then is clamped to the bounds, and time_last_decrease is set to
now_ms; the decreased bitrate never falls below the TFRC value. -/
theorem updateEstimate_decrease (tfrcBody : ℕ → ℕ → ℕ) (s : EstimatorState) (now : ℕ)
    (hloss1 : 26 < s.last_fraction_loss) (hloss2 : s.last_fraction_loss ≤ 255)
    (hcool : (300 + s.last_round_trip_time) % UINT32_MOD ≤
      usub32 now s.time_last_decrease) :
    UpdateEstimate tfrcBody s now =
      CapBitrateToThresholds
        { s with
            time_last_decrease := now % UINT32_MOD
            bitrate := max (s.bitrate * (512 - s.last_fraction_loss) / 512)
              (CalcTfrcBps tfrcBody (s.last_round_trip_time % 65536)
                s.last_fraction_loss) } ∧
      CalcTfrcBps tfrcBody (s.last_round_trip_time % 65536) s.last_fraction_loss ≤
        max (s.bitrate * (512 - s.last_fraction_loss) / 512)
          (CalcTfrcBps tfrcBody (s.last_round_trip_time % 65536)
            s.last_fraction_loss) := by
  have hmod : s.last_fraction_loss % 256 = s.last_fraction_loss :=
    Nat.mod_eq_of_lt (by omega)
  constructor
  · unfold UpdateEstimate
    congr 1
    unfold rateAdapt
    rw [if_neg (by omega), if_neg (by omega)]
    simp only [kBweDecreaseIntervalMs]
    rw [if_pos hcool, hmod]
  · exact le_max_right _ _

/-- C3 witness: a decrease at loss 128, rtt 100, bitrate 512000, triggered
400 ms after the last decrease. -/
theorem updateEstimate_decrease_witness :
    UpdateEstimate (fun _ _ => 77777)
        { initState with bitrate := 512000, last_fraction_loss := 128,
                         last_round_trip_time := 100 } 400 =
      CapBitrateToThresholds
        { initState with
            bitrate := max (512000 * (512 - 128) / 512)
              (CalcTfrcBps (fun _ _ => 77777) (100 % 65536) 128)
            last_fraction_loss := 128
            last_round_trip_time := 100
            time_last_decrease := 400 % UINT32_MOD } ∧
      CalcTfrcBps (fun _ _ => 77777) (100 % 65536) 128 ≤
        max (512000 * (512 - 128) / 512)
          (CalcTfrcBps (fun _ _ => 77777) (100 % 65536) 128) :=
  updateEstimate_decrease (fun _ _ => 77777)
    { initState with bitrate := 512000, last_fraction_loss := 128,
                     last_round_trip_time := 100 } 400
    (by decide) (by decide) (by decide)

/-- C4: with last_fraction_loss at most 5 and at least 1000 ms elapsed since
time_last_increase (unsigned), the bitrate becomes the rounding of
bitrate * 1.08 plus 1000 before the clamp (as a natural number,
(54 b + 25) / 50 + 1000, with the uint32 wrap), and time_last_increase is set
to now_ms; without the cooldown the bitrate is merely re-clamped.  With loss
fixed at 0, reports 500 ms apart produce one increase, reports 1000 ms apart
produce two; a triggered increase from bitrate 300000 yields 325000. -/
theorem updateEstimate_increase (tfrcBody : ℕ → ℕ → ℕ) (s : EstimatorState) (now : ℕ)
    (hloss : s.last_fraction_loss ≤ 5) :
    (1000 ≤ usub32 now s.time_last_increase →
        UpdateEstimate tfrcBody s now =
          CapBitrateToThresholds
            { s with
                time_last_increase := now % UINT32_MOD
                bitrate := ((54 * s.bitrate + 25) / 50 + 1000) % UINT32_MOD }) ∧
      (usub32 now s.time_last_increase < 1000 →
        UpdateEstimate tfrcBody s now = CapBitrateToThresholds s) ∧
      (UpdateReceiverBlock (fun _ _ => 0)
          (SetSendBitrate (SetMinMaxBitrate initState 50000 1000000) 300000)
          0 50 25 1000).bitrate = 325000 ∧
      (UpdateReceiverBlock (fun _ _ => 0)
          (UpdateReceiverBlock (fun _ _ => 0)
            (SetSendBitrate (SetMinMaxBitrate initState 50000 1000000) 300000)
            0 50 25 1000)
          0 50 25 1500).bitrate = 325000 ∧
      (UpdateReceiverBlock (fun _ _ => 0)
          (UpdateReceiverBlock (fun _ _ => 0)
            (SetSendBitrate (SetMinMaxBitrate initState 50000 1000000) 300000)
            0 50 25 1000)
          0 50 25 2000).bitrate = 352000 := by
  refine ⟨?_, ?_, by decide, by decide, by decide⟩
  · intro h
    unfold UpdateEstimate
    congr 1
    unfold rateAdapt
    rw [if_pos hloss]
    simp only [kBweIncreaseIntervalMs]
    rw [if_pos h]
  · intro h
    unfold UpdateEstimate
    congr 1
    unfold rateAdapt
    rw [if_pos hloss, if_neg (by simp only [kBweIncreaseIntervalMs]; omega)]

/-- C4 witness: the triggered increase at now = 1000 from the initial state
(bitrate 0) yields (54 * 0 + 25) / 50 + 1000 before the clamp. -/
theorem updateEstimate_increase_witness :
    UpdateEstimate (fun _ _ => 0) initState 1000 =
      CapBitrateToThresholds
        { initState with
            time_last_increase := 1000 % UINT32_MOD
            bitrate := ((54 * initState.bitrate + 25) / 50 + 1000) % UINT32_MOD } :=
  (updateEstimate_increase (fun _ _ => 0) initState 1000 (by decide)).1 (by decide)

/-- C8: the increase cooldown is the literal unsigned 32-bit comparison
now_ms - time_last_increase at least 1000 (usub32 is the wrapping
subtraction, with no special-casing: usub32 now 0 = now mod 2^32 and the
comparison wraps, as the closed instance with time_last_increase 2^32 - 1000
shows); consequently, from timestamps still at their initial value 0, a
loss-free feedback report at now_ms = 0 does not trigger an increase while
one whose unsigned difference reaches 1000 does. -/
theorem cooldown_literal_unsigned (tfrcBody : ℕ → ℕ → ℕ) (s : EstimatorState) (now : ℕ)
    (htli : s.time_last_increase = 0) (hloss : s.last_fraction_loss ≤ 5) :
    usub32 now s.time_last_increase = now % UINT32_MOD ∧
      (now % UINT32_MOD < 1000 →
        UpdateEstimate tfrcBody s now = CapBitrateToThresholds s) ∧
      (1000 ≤ now % UINT32_MOD →
        UpdateEstimate tfrcBody s now =
          CapBitrateToThresholds
            { s with
                time_last_increase := now % UINT32_MOD
                bitrate := ((54 * s.bitrate + 25) / 50 + 1000) % UINT32_MOD }) ∧
      usub32 0 4294966296 = 1000 ∧
      (UpdateReceiverBlock (fun _ _ => 0)
          (SetSendBitrate (SetMinMaxBitrate initState 50000 1000000) 300000)
          0 50 25 0).bitrate = 300000 ∧
      (UpdateReceiverBlock (fun _ _ => 0)
          (SetSendBitrate (SetMinMaxBitrate initState 50000 1000000) 300000)
          0 50 25 1000).bitrate = 325000 := by
  have hz : usub32 now s.time_last_increase = now % UINT32_MOD := by
    rw [htli]
    exact usub32_zero now
  refine ⟨hz, ?_, ?_, by decide, by decide, by decide⟩
  · intro h
    unfold UpdateEstimate
    congr 1
    unfold rateAdapt
    rw [if_pos hloss,
      if_neg (by rw [hz]; simp only [kBweIncreaseIntervalMs]; omega)]
  · intro h
    unfold UpdateEstimate
    congr 1
    unfold rateAdapt
    rw [if_pos hloss]
    simp only [kBweIncreaseIntervalMs]
    rw [if_pos (show 1000 ≤ usub32 now s.time_last_increase by rw [hz]; exact h)]

/-- C8 witness: at now_ms = 0 from the initial timestamps no increase fires
(the state is merely re-clamped). -/
theorem cooldown_literal_unsigned_witness :
    UpdateEstimate (fun _ _ => 0) initState 0 = CapBitrateToThresholds initState :=
  (cooldown_literal_unsigned (fun _ _ => 0) initState 0 rfl (by decide)).2.1 (by decide)

/-- C9: CalcTfrcBps receives the stored rtt through its uint16_t parameter,
i.e. reduced mod 65536: when the stored rtt is a positive multiple of 65536
and a decrease fires (loss above 26, cooldown elapsed), the computed floor is
0 and the multiplicative decrease is not floored, although the stored rtt and
the loss are both nonzero. -/
theorem tfrc_rtt_mod65536 (tfrcBody : ℕ → ℕ → ℕ) (s : EstimatorState) (now : ℕ)
    (hmul : s.last_round_trip_time % 65536 = 0) (hpos : 0 < s.last_round_trip_time)
    (hloss1 : 26 < s.last_fraction_loss) (hloss2 : s.last_fraction_loss ≤ 255)
    (hcool : (300 + s.last_round_trip_time) % UINT32_MOD ≤
      usub32 now s.time_last_decrease) :
    CalcTfrcBps tfrcBody (s.last_round_trip_time % 65536) (s.last_fraction_loss % 256) = 0 ∧
      s.last_round_trip_time ≠ 0 ∧ s.last_fraction_loss ≠ 0 ∧
      UpdateEstimate tfrcBody s now =
        CapBitrateToThresholds
          { s with
              time_last_decrease := now % UINT32_MOD
              bitrate := s.bitrate * (512 - s.last_fraction_loss) / 512 } := by
  have htf : CalcTfrcBps tfrcBody (s.last_round_trip_time % 65536)
      (s.last_fraction_loss % 256) = 0 := by
    unfold CalcTfrcBps
    rw [if_pos (Or.inl hmul)]
  refine ⟨htf, by omega, by omega, ?_⟩
  unfold UpdateEstimate
  congr 1
  unfold rateAdapt
  rw [if_neg (by omega), if_neg (by omega)]
  simp only [kBweDecreaseIntervalMs]
  rw [if_pos hcool, htf]
  simp

/-- C9 witness: a stored rtt of exactly 65536 with loss 200; the decrease at
now = 66000 is not floored. -/
theorem tfrc_rtt_mod65536_witness :
    CalcTfrcBps (fun _ _ => 99) (65536 % 65536) (200 % 256) = 0 ∧
      (65536 : ℕ) ≠ 0 ∧ (200 : ℕ) ≠ 0 ∧
      UpdateEstimate (fun _ _ => 99)
          { initState with bitrate := 512000, last_fraction_loss := 200,
                           last_round_trip_time := 65536 } 66000 =
        CapBitrateToThresholds
          { initState with
              bitrate := 512000 * (512 - 200) / 512
              last_fraction_loss := 200
              last_round_trip_time := 65536
              time_last_decrease := 66000 % UINT32_MOD } :=
  tfrc_rtt_mod65536 (fun _ _ => 99)
    { initState with bitrate := 512000, last_fraction_loss := 200,
                     last_round_trip_time := 65536 } 66000
    (by decide) (by decide) (by decide) (by decide) (by decide)
